import Mathlib

/-!
Shallow embedding of `src/services/gemini.ts`, a thin adapter over the
Google GenAI provider.  Pure request-building code becomes Lean functions;
the provider network calls and the file-reader capability are modelled as
explicit function parameters returning `Except`; the lazily initialised
module-level client handle becomes explicit state passing.
-/

namespace GeminiService

/-- The `Type` enum of the `@google/genai` SDK (only the members used here). -/
inductive SchemaType
  | OBJECT
  | STRING
deriving DecidableEq, Repr

/-- Schema of one declared parameter (`type` plus `description`). -/
structure PropertySchema where
  type : SchemaType
  description : String
deriving DecidableEq, Repr

/-- The `parameters` schema of a function declaration. -/
structure ParametersSchema where
  type : SchemaType
  properties : List (String × PropertySchema)
  required : List String
deriving DecidableEq, Repr

/-- `FunctionDeclaration` from the SDK: a tool the model may call. -/
structure FunctionDeclaration where
  name : String
  description : String
  parameters : ParametersSchema
deriving DecidableEq, Repr

/-- The module-level `imageGenerationTool` constant of `gemini.ts`. -/
def imageGenerationTool : FunctionDeclaration :=
  { name := "generate_image"
  , description := "Call this function when the user asks to draw, generate, create, or make an image/picture/photo. Do not use for general questions."
  , parameters :=
      { type := SchemaType.OBJECT
      , properties :=
          [ ("prompt",
             { type := SchemaType.STRING
             , description := "The detailed description of the image to generate." }) ]
      , required := ["prompt"] } }

/-- Inline binary payload of a content part: a MIME tag plus base64 data.
The data slot is `Option` because the JavaScript value fed into it can be
`undefined` (see `blobToBase64`). -/
structure InlineData where
  mimeType : String
  data : Option String
deriving DecidableEq, Repr

/-- A content `Part`: plain text or MIME-tagged inline data. -/
inductive Part
  | text (s : String)
  | inlineData (d : InlineData)
deriving DecidableEq, Repr

/-- The `contents` envelope `{ parts: [...] }`. -/
structure Contents where
  parts : List Part
deriving DecidableEq, Repr

/-- A `Content` turn of a chat history: a role plus content parts. -/
structure Content where
  role : String
  parts : List Part
deriving DecidableEq, Repr

/-- One entry of the `tools` array: a set of function declarations. -/
structure Tool where
  functionDeclarations : List FunctionDeclaration
deriving DecidableEq, Repr

/-- The `config` block passed to `chats.create`. -/
structure ChatConfig where
  systemInstruction : String
  tools : List Tool
deriving DecidableEq, Repr

/-- The request object passed to `ai.chats.create`. -/
structure ChatCreateRequest where
  model : String
  history : Option (List Content)
  config : ChatConfig
deriving DecidableEq, Repr

/-- The request object passed to `ai.models.generateContent`.  The source
never supplies a response MIME type or schema, so both slots are `Option`
and omission is `none`. -/
structure GenerateContentRequest where
  model : String
  contents : Contents
  responseMimeType : Option String
  responseSchema : Option ParametersSchema
deriving DecidableEq, Repr

/-- Provider response: the adapter only reads the `text` accessor, which in
the SDK is `string | undefined`. -/
structure GenerateContentResponse where
  text : Option String
deriving DecidableEq, Repr

/-- An error thrown by the provider or the host runtime. -/
structure JsError where
  message : String
deriving DecidableEq, Repr

/-- Opaque chat-session handle returned by `chats.create`. -/
structure Chat where
  sessionId : Nat
deriving DecidableEq, Repr

/-- The client handle: `new GoogleGenAI({ apiKey: process.env.GEMINI_API_KEY })`
only binds the credential. -/
structure GoogleGenAI where
  apiKey : Option String
deriving DecidableEq, Repr

/-- Process environment: `process.env.GEMINI_API_KEY` may be unset. -/
structure Env where
  GEMINI_API_KEY : Option String
deriving DecidableEq, Repr

/-- The module-level mutable slot `let ai: GoogleGenAI | null = null`, plus a
ghost counter of how many times a handle has been constructed. -/
structure AdapterState where
  ai : Option GoogleGenAI
  constructions : Nat
deriving DecidableEq, Repr

/-- The state at module load: `ai = null`, nothing constructed yet. -/
def initialState : AdapterState :=
  { ai := none, constructions := 0 }

/-- `getAi`: return the cached handle, or construct one on first use. -/
def getAi (env : Env) (s : AdapterState) : GoogleGenAI × AdapterState :=
  match s.ai with
  | some a => (a, s)
  | none =>
      let a : GoogleGenAI := { apiKey := env.GEMINI_API_KEY }
      (a, { ai := some a, constructions := s.constructions + 1 })

/-- A sequence of `n` sequential `getAi` invocations: the list of handles
returned and the final state. -/
def getAiRuns (env : Env) : Nat → AdapterState → List GoogleGenAI × AdapterState
  | 0, s => ([], s)
  | n + 1, s =>
      let p := getAi env s
      let q := getAiRuns env n p.2
      (p.1 :: q.1, q.2)

/-- The provider capability `models.generateContent` on a given handle. -/
def ModelsApi : Type :=
  GoogleGenAI → GenerateContentRequest → Except JsError GenerateContentResponse

/-- The provider capability `chats.create` on a given handle. -/
def ChatsApi : Type :=
  GoogleGenAI → ChatCreateRequest → Except JsError Chat

/-- The fixed system instruction literal of `createChatSession`. -/
def systemInstructionText : String :=
  "You are k-ite, an advanced AI assistant created by the k-ite team. Your primary directive is to identify solely as k-ite. You must NEVER claim to be Gemini, a Google product, or affiliated with Google in any way.\n\nKey Behaviors:\n1. **Format & Layout**: Use Markdown extensively to create clean, readable layouts. Use Headers (#, ##) for sections, Bold (**) for emphasis, and Tables for structured data.\n2. **Math & Science**: You are an expert in Math. ALWAYS use LaTeX formatting for mathematical equations and symbols. Enclose inline math in single dollar signs ($...$) and block math in double dollar signs ($$...$$).\n   - Example: \"The area is $A = \\pi r^2$\"\n   - Example: \"$$\\int_\x7b0\x7d^\x7b\\infty\x7d x^2 dx$$\"\n3. **Tone**: Maintain a helpful, friendly, and concise tone matching your clean and airy interface.\n4. **Images**: If the user asks to generate an image, use the generate_image tool."

/-- The request object `createChatSession` hands to `chats.create`. -/
def chatCreateRequest (model : String) (history : Option (List Content)) :
    ChatCreateRequest :=
  { model := model
  , history := history
  , config :=
      { systemInstruction := systemInstructionText
      , tools := [{ functionDeclarations := [imageGenerationTool] }] } }

/-- `createChatSession(model, history?)`: obtain the handle, create a chat. -/
def createChatSession (env : Env) (chats : ChatsApi) (s : AdapterState)
    (model : String) (history : Option (List Content)) :
    Except JsError Chat × AdapterState :=
  let p := getAi env s
  (chats p.1 (chatCreateRequest model history), p.2)

/-- The request object `generateContent` hands to `models.generateContent`. -/
def generateContentRequest (model : String) (parts : List Part) :
    GenerateContentRequest :=
  { model := model
  , contents := { parts := parts }
  , responseMimeType := none
  , responseSchema := none }

/-- `generateContent(model, parts)`: forward the parts for the given model. -/
def generateContent (env : Env) (models : ModelsApi) (s : AdapterState)
    (model : String) (parts : List Part) :
    Except JsError GenerateContentResponse × AdapterState :=
  let p := getAi env s
  (models p.1 (generateContentRequest model parts), p.2)

/-- The request object `generateImage` hands to `models.generateContent`:
fixed model literal, the prompt as the sole text part, no response-shape
constraint. -/
def generateImageRequest (prompt : String) : GenerateContentRequest :=
  { model := "gemini-2.5-flash-image"
  , contents := { parts := [Part.text prompt] }
  , responseMimeType := none
  , responseSchema := none }

/-- `generateImage(prompt)`. -/
def generateImage (env : Env) (models : ModelsApi) (s : AdapterState)
    (prompt : String) :
    Except JsError GenerateContentResponse × AdapterState :=
  let p := getAi env s
  (models p.1 (generateImageRequest prompt), p.2)

/-- A binary buffer with its declared MIME type; an unspecified type is the
empty string, as for a JavaScript `Blob`. -/
structure Blob where
  type : String
  bytes : List Nat
deriving DecidableEq, Repr

/-- The host capability `FileReader.readAsDataURL`: resolves with the data
URL, or fails when the read fails. -/
def ReaderApi : Type :=
  Blob → Except JsError String

/-- JavaScript `String.prototype.split` with a one-character separator,
over the character list: splits at every occurrence, never empty. -/
def jsSplitChar (sep : Char) : List Char → List (List Char)
  | [] => [[]]
  | c :: cs =>
      let rest := jsSplitChar sep cs
      if c = sep then [] :: rest
      else
        match rest with
        | [] => [[c]]
        | r :: rs => (c :: r) :: rs

/-- JavaScript `s.split(sep)` for a one-character separator. -/
def jsSplit (sep : Char) (s : String) : List String :=
  (jsSplitChar sep s.toList).map List.asString

/-- `blobToBase64`: read the blob as a data URL and take
`dataUrl.split(',')[1]`; indexing past the end yields `undefined` (`none`),
which is resolved, not rejected.  A reader failure rejects. -/
def blobToBase64 (reader : ReaderApi) (blob : Blob) :
    Except JsError (Option String) :=
  match reader blob with
  | Except.error e => Except.error e
  | Except.ok dataUrl => Except.ok ((jsSplit ',' dataUrl).get? 1)

/-- JavaScript `a || b` on a string `a`: the empty string is falsy. -/
def jsOrElse (a b : String) : String :=
  if a = "" then b else a

/-- JavaScript `a || b` where `a : string | undefined`. -/
def jsOrElseOpt (a : Option String) (b : String) : String :=
  match a with
  | none => b
  | some s => if s = "" then b else s

/-- The fixed transcription instruction literal of `transcribeAudio`. -/
def transcriptionInstructionText : String :=
  "Listen carefully to the audio. Transcribe the human speech to text (Vietnamese preferred). \n\nCRITICAL RULE: If the audio contains NO human speech (e.g., only silence, background noise, static, typing sounds, breathing, or music without lyrics), output EXACTLY the string: [[NO_SPEECH]]\n\nDo not output any other explanation."

/-- The request object `transcribeAudio` hands to `models.generateContent`,
given the encoded audio payload. -/
def transcribeRequest (audioBlob : Blob) (base64Data : Option String) :
    GenerateContentRequest :=
  { model := "gemini-3-flash-preview"
  , contents :=
      { parts :=
          [ Part.inlineData
              { mimeType := jsOrElse audioBlob.type "audio/webm"
              , data := base64Data }
          , Part.text transcriptionInstructionText ] }
  , responseMimeType := none
  , responseSchema := none }

/-- The record `transcribeAudio` always returns: `{ text: string }`. -/
structure TranscriptionResult where
  text : String
deriving DecidableEq, Repr

/-- `transcribeAudio(audioBlob)`: encode, call the provider, unwrap the
text; every failure in the `try` block is caught and becomes
`{ text := "" }`. -/
def transcribeAudio (reader : ReaderApi) (env : Env) (models : ModelsApi)
    (s : AdapterState) (audioBlob : Blob) :
    TranscriptionResult × AdapterState :=
  match blobToBase64 reader audioBlob with
  | Except.error _ => ({ text := "" }, s)
  | Except.ok base64Data =>
      let p := getAi env s
      match models p.1 (transcribeRequest audioBlob base64Data) with
      | Except.error _ => ({ text := "" }, p.2)
      | Except.ok response => ({ text := jsOrElseOpt response.text "" }, p.2)

/-- Splitting on a separator that occurs nowhere in the list yields the
singleton list, as JavaScript `split` does. -/
theorem jsSplitChar_of_not_mem (sep : Char) :
    ∀ l : List Char, (∀ c ∈ l, c ≠ sep) → jsSplitChar sep l = [l]
  | [], _ => rfl
  | c :: cs, h => by
      have hc : c ≠ sep := h c (List.mem_cons_self c cs)
      have ih := jsSplitChar_of_not_mem sep cs (fun x hx => h x (List.mem_cons_of_mem c hx))
      simp [jsSplitChar, hc, ih]

/-- Once the handle slot is populated, any further run of `getAi` calls
returns that same handle every time and leaves the state untouched. -/
theorem getAiRuns_cached (env : Env) :
    ∀ (n : Nat) (a : GoogleGenAI) (k : Nat),
      getAiRuns env n { ai := some a, constructions := k }
        = (List.replicate n a, { ai := some a, constructions := k })
  | 0, _, _ => rfl
  | n + 1, a, k => by
      simp [getAiRuns, getAi, getAiRuns_cached env n a k, List.replicate]

/-- C1: for every prompt, `generateImage` calls the provider exactly on a
request whose model is the fixed literal "gemini-2.5-flash-image", whose
contents hold exactly one text part carrying the prompt, and which sets no
response MIME type and no response schema. -/
theorem generateImage_request_spec (env : Env) (models : ModelsApi)
    (s : AdapterState) (prompt : String) :
    (generateImage env models s prompt).1
        = models (getAi env s).1 (generateImageRequest prompt)
      ∧ (generateImageRequest prompt).model = "gemini-2.5-flash-image"
      ∧ (generateImageRequest prompt).contents.parts = [Part.text prompt]
      ∧ (generateImageRequest prompt).responseMimeType = none
      ∧ (generateImageRequest prompt).responseSchema = none :=
  ⟨rfl, rfl, rfl, rfl, rfl⟩

/-- C2: `transcribeAudio` is a total function into `TranscriptionResult`
(it cannot throw), and whenever the encoding step or the provider call
fails, its result is the record with empty text. -/
theorem transcribeAudio_swallows_errors (reader : ReaderApi) (env : Env)
    (models : ModelsApi) (s : AdapterState) (audioBlob : Blob)
    (h : (∃ e, reader audioBlob = Except.error e)
        ∨ (∃ b e, blobToBase64 reader audioBlob = Except.ok b
            ∧ models (getAi env s).1 (transcribeRequest audioBlob b)
                = Except.error e)) :
    (transcribeAudio reader env models s audioBlob).1 = { text := "" } := by
  rcases h with ⟨e, he⟩ | ⟨b, e, hb, he⟩
  · simp [transcribeAudio, blobToBase64, he]
  · simp [transcribeAudio, hb, he]

/-- C2 witness: a reader failure and a provider failure, each at a concrete
input, both produce empty text. -/
theorem transcribeAudio_swallows_errors_witness :
    (transcribeAudio (fun _ => Except.error { message := "read failed" })
        { GEMINI_API_KEY := none } (fun _ _ => Except.ok { text := none })
        initialState { type := "", bytes := [0] }).1 = { text := "" }
    ∧ (transcribeAudio (fun _ => Except.ok "data:audio/webm;base64,QUJD")
        { GEMINI_API_KEY := none } (fun _ _ => Except.error { message := "503" })
        initialState { type := "", bytes := [0] }).1 = { text := "" } :=
  ⟨transcribeAudio_swallows_errors _ _ _ _ _
      (Or.inl ⟨{ message := "read failed" }, rfl⟩),
   transcribeAudio_swallows_errors _ _ _ _ _
      (Or.inr ⟨some "QUJD", { message := "503" }, rfl, rfl⟩)⟩

/-- C3: on a successful provider call, the returned text is exactly the
provider text when it is present and non-empty, and empty when the provider
returned no text; the sentinel "[[NO_SPEECH]]" passes through unmodified. -/
theorem transcribeAudio_success_text (reader : ReaderApi) (env : Env)
    (models : ModelsApi) (s : AdapterState) (audioBlob : Blob)
    (b : Option String) (r : GenerateContentResponse)
    (hb : blobToBase64 reader audioBlob = Except.ok b)
    (hm : models (getAi env s).1 (transcribeRequest audioBlob b) = Except.ok r) :
    (∀ t, r.text = some t → t ≠ "" →
        (transcribeAudio reader env models s audioBlob).1.text = t)
      ∧ (r.text = none →
          (transcribeAudio reader env models s audioBlob).1.text = "")
      ∧ (r.text = some "[[NO_SPEECH]]" →
          (transcribeAudio reader env models s audioBlob).1.text
            = "[[NO_SPEECH]]") := by
  refine ⟨fun t ht hne => ?_, fun ht => ?_, fun ht => ?_⟩
  · simp [transcribeAudio, hb, hm, jsOrElseOpt, ht, hne]
  · simp [transcribeAudio, hb, hm, jsOrElseOpt, ht]
  · simp [transcribeAudio, hb, hm, jsOrElseOpt, ht]

/-- C3 witness: at a concrete blob and a provider answering the sentinel,
the sentinel comes back verbatim. -/
theorem transcribeAudio_success_text_witness :
    (transcribeAudio (fun _ => Except.ok "a,b") { GEMINI_API_KEY := none }
        (fun _ _ => Except.ok { text := some "[[NO_SPEECH]]" })
        initialState { type := "", bytes := [0] }).1.text = "[[NO_SPEECH]]" :=
  (transcribeAudio_success_text (fun _ => Except.ok "a,b")
      { GEMINI_API_KEY := none }
      (fun _ _ => Except.ok { text := some "[[NO_SPEECH]]" }) initialState
      { type := "", bytes := [0] } (some "b")
      { text := some "[[NO_SPEECH]]" } rfl rfl).2.2 rfl

/-- C4: for every model and history, `createChatSession` calls the provider
on a request whose config carries the fixed system instruction and exactly
one tool declaration, the image-generation function, whose schema has the
single required string property "prompt". -/
theorem createChatSession_config_spec (env : Env) (chats : ChatsApi)
    (s : AdapterState) (model : String) (history : Option (List Content)) :
    (createChatSession env chats s model history).1
        = chats (getAi env s).1 (chatCreateRequest model history)
      ∧ (chatCreateRequest model history).config.systemInstruction
        = systemInstructionText
      ∧ (chatCreateRequest model history).config.tools
        = [{ functionDeclarations := [imageGenerationTool] }]
      ∧ imageGenerationTool.parameters.properties
        = [("prompt",
            { type := SchemaType.STRING
            , description := "The detailed description of the image to generate." })]
      ∧ imageGenerationTool.parameters.required = ["prompt"] :=
  ⟨rfl, rfl, rfl, rfl, rfl⟩

/-- C5: `generateContent` calls the provider on a single request whose model
field is the model argument and whose parts are the parts argument verbatim,
and returns the provider response unmodified. -/
theorem generateContent_forwards_verbatim (env : Env) (models : ModelsApi)
    (s : AdapterState) (model : String) (parts : List Part) :
    (generateContent env models s model parts).1
        = models (getAi env s).1 (generateContentRequest model parts)
      ∧ (generateContentRequest model parts).model = model
      ∧ (generateContentRequest model parts).contents.parts = parts :=
  ⟨rfl, rfl, rfl⟩

/-- C6: `createChatSession`, `generateContent` and `generateImage` catch
nothing: a provider error on the built request is the operation's result,
unmodified. -/
theorem adapter_propagates_errors (env : Env) (chats : ChatsApi)
    (models : ModelsApi) (s1 s2 s3 : AdapterState) (model : String)
    (history : Option (List Content)) (parts : List Part) (prompt : String)
    (e : JsError)
    (h1 : chats (getAi env s1).1 (chatCreateRequest model history)
        = Except.error e)
    (h2 : models (getAi env s2).1 (generateContentRequest model parts)
        = Except.error e)
    (h3 : models (getAi env s3).1 (generateImageRequest prompt)
        = Except.error e) :
    (createChatSession env chats s1 model history).1 = Except.error e
      ∧ (generateContent env models s2 model parts).1 = Except.error e
      ∧ (generateImage env models s3 prompt).1 = Except.error e :=
  ⟨h1, h2, h3⟩

/-- C6 witness: with a provider that fails with a quota error, all three
operations surface exactly that error at concrete inputs. -/
theorem adapter_propagates_errors_witness :
    (createChatSession { GEMINI_API_KEY := none }
        (fun _ _ => Except.error { message := "quota" }) initialState
        "gemini-pro" none).1 = Except.error { message := "quota" }
    ∧ (generateContent { GEMINI_API_KEY := none }
        (fun _ _ => Except.error { message := "quota" }) initialState
        "gemini-pro" []).1 = Except.error { message := "quota" }
    ∧ (generateImage { GEMINI_API_KEY := none }
        (fun _ _ => Except.error { message := "quota" }) initialState
        "a red bicycle").1 = Except.error { message := "quota" } :=
  adapter_propagates_errors { GEMINI_API_KEY := none } _ _ _ _ _
    "gemini-pro" none [] "a red bicycle" { message := "quota" } rfl rfl rfl

/-- C7: under sequential execution, any positive number of `getAi` calls
from the initial state constructs exactly one handle, on the first call, and
every call returns that same handle. -/
theorem getAi_singleton (env : Env) (n : Nat) :
    getAiRuns env (n + 1) initialState
      = (List.replicate (n + 1) { apiKey := env.GEMINI_API_KEY },
         { ai := some { apiKey := env.GEMINI_API_KEY }, constructions := 1 }) := by
  simp [getAiRuns, getAi, initialState, getAiRuns_cached, List.replicate]

/-- C8: the inline audio part of the transcription request is tagged with
the blob's declared MIME type when that type is non-empty, and with
"audio/webm" when it is the empty string. -/
theorem transcribeRequest_mime_tag (audioBlob : Blob) (b64 : Option String) :
    (transcribeRequest audioBlob b64).contents.parts
      = [ Part.inlineData
            { mimeType := if audioBlob.type = "" then "audio/webm"
              else audioBlob.type
            , data := b64 }
        , Part.text transcriptionInstructionText ] :=
  rfl

/-- C9: `blobToBase64` rejects exactly when the read fails; when the read
succeeds with a data URL containing no comma, it resolves with the absent
value `none` instead of a string or a rejection. -/
theorem blobToBase64_comma_free (reader : ReaderApi) (blob : Blob) :
    (∀ e, reader blob = Except.error e →
        blobToBase64 reader blob = Except.error e)
      ∧ (∀ u, reader blob = Except.ok u → (∀ c ∈ u.toList, c ≠ ',') →
          blobToBase64 reader blob = Except.ok none) := by
  constructor
  · intro e he
    simp [blobToBase64, he]
  · intro u hu hc
    have hs : jsSplitChar ',' u.data = [u.data] :=
      jsSplitChar_of_not_mem ',' u.data hc
    simp [blobToBase64, hu, jsSplit, hs]

/-- C9 witness: a failing read rejects with the same error, and a read that
yields a comma-free string resolves with the absent value. -/
theorem blobToBase64_comma_free_witness :
    blobToBase64 (fun _ => Except.error { message := "aborted" })
        { type := "", bytes := [] } = Except.error { message := "aborted" }
    ∧ blobToBase64 (fun _ => Except.ok "nocomma")
        { type := "", bytes := [] } = Except.ok none :=
  ⟨(blobToBase64_comma_free _ _).1 { message := "aborted" } rfl,
   (blobToBase64_comma_free _ _).2 "nocomma" rfl (by decide)⟩

/-- C10: each operation hands the provider a request computed from its
arguments and module literals only — from any two internal states the same
arguments yield the same outbound payload. -/
theorem requests_state_independent (env : Env) (chats : ChatsApi)
    (models : ModelsApi) (reader : ReaderApi) (s1 s2 : AdapterState)
    (model : String) (history : Option (List Content)) (parts : List Part)
    (prompt : String) (audioBlob : Blob) (b64 : Option String)
    (hb : blobToBase64 reader audioBlob = Except.ok b64) :
    ((createChatSession env chats s1 model history).1
        = chats (getAi env s1).1 (chatCreateRequest model history)
      ∧ (createChatSession env chats s2 model history).1
        = chats (getAi env s2).1 (chatCreateRequest model history))
    ∧ ((generateContent env models s1 model parts).1
        = models (getAi env s1).1 (generateContentRequest model parts)
      ∧ (generateContent env models s2 model parts).1
        = models (getAi env s2).1 (generateContentRequest model parts))
    ∧ ((generateImage env models s1 prompt).1
        = models (getAi env s1).1 (generateImageRequest prompt)
      ∧ (generateImage env models s2 prompt).1
        = models (getAi env s2).1 (generateImageRequest prompt))
    ∧ ((transcribeAudio reader env models s1 audioBlob).1
        = (match models (getAi env s1).1 (transcribeRequest audioBlob b64) with
           | Except.error _ => { text := "" }
           | Except.ok response => { text := jsOrElseOpt response.text "" })
      ∧ (transcribeAudio reader env models s2 audioBlob).1
        = (match models (getAi env s2).1 (transcribeRequest audioBlob b64) with
           | Except.error _ => { text := "" }
           | Except.ok response => { text := jsOrElseOpt response.text "" })) := by
  refine ⟨⟨rfl, rfl⟩, ⟨rfl, rfl⟩, ⟨rfl, rfl⟩, ?_, ?_⟩
  · cases hm : models (getAi env s1).1 (transcribeRequest audioBlob b64) <;>
      simp [transcribeAudio, hb, hm]
  · cases hm : models (getAi env s2).1 (transcribeRequest audioBlob b64) <;>
      simp [transcribeAudio, hb, hm]

/-- C10 witness: at concrete inputs the transcription equation evaluates to
the provider text, the hypothesis discharged by evaluation. -/
theorem requests_state_independent_witness :
    (transcribeAudio (fun _ => Except.ok "a,b") { GEMINI_API_KEY := none }
        (fun _ _ => Except.ok { text := some "hello" }) initialState
        { type := "", bytes := [0] }).1 = { text := "hello" } :=
  ((requests_state_independent { GEMINI_API_KEY := none }
      (fun _ _ => Except.ok { sessionId := 0 })
      (fun _ _ => Except.ok { text := some "hello" })
      (fun _ => Except.ok "a,b") initialState initialState "gemini-pro" none
      [] "a red bicycle" { type := "", bytes := [0] } (some "b")
      rfl).2.2.2.1).trans rfl

end GeminiService
